import Mathlib

/-!
Shallow embedding of the goh2 HTTP/2 server (github.com/jakegut/goh2):
HPACK codec, frame codec, connection read loop and stream machine, with
proofs about the claims of the specification.

Conventions used throughout:
  * Go byte strings are `List Nat`, each entry a byte value below 256.
  * Bitwise operations on bytes are transliterated to arithmetic:
    for a byte `b`, `b & 0x7f = b % 128`, the test `b & 0x80 == 0x80`
    is `128 ≤ b`, `b & mask = b % (mask+1)` for a low-bit mask, and a
    single-bit flag test `flags & f == f` is `flags / f % 2 == 1`.
  * Go runtime panics (slice index out of range, nil dereference) are
    modelled as a distinguished `none` / `panic` outcome.
  * Loops whose termination is not structural take an explicit gas
    parameter; exhausting the gas is reported as divergence.

The file is laid out as definitions first (the embedding), then the
theorems settling the claims.
-/

namespace Goh2

/-- ASCII string literal to Go byte string. -/
def bstr (s : String) : List Nat := s.toList.map Char.toNat

namespace Hpack

/-- src/unnamed/part_001 `Header`: a name/value pair of octet strings
with the never-indexed hint. -/
structure Header where
  name : List Nat
  value : List Nat
  neverIndexed : Bool
deriving DecidableEq, Repr

/-- src/unnamed/part_001 `Header.Size`: `len(name) + len(value) + 32`. -/
def Header.Size (h : Header) : Nat := h.name.length + h.value.length + 32

/-- src/unnamed/part_001 `staticTable` (62 entries, index 0 a dummy). -/
def staticTable : List Header := [
  ⟨[], [], false⟩,
  ⟨bstr ":authority", [], false⟩,
  ⟨bstr ":method", bstr "GET", false⟩,
  ⟨bstr ":method", bstr "POST", false⟩,
  ⟨bstr ":path", bstr "/", false⟩,
  ⟨bstr ":path", bstr "/index.html", false⟩,
  ⟨bstr ":scheme", bstr "http", false⟩,
  ⟨bstr ":scheme", bstr "https", false⟩,
  ⟨bstr ":status", bstr "200", false⟩,
  ⟨bstr ":status", bstr "204", false⟩,
  ⟨bstr ":status", bstr "206", false⟩,
  ⟨bstr ":status", bstr "304", false⟩,
  ⟨bstr ":status", bstr "400", false⟩,
  ⟨bstr ":status", bstr "404", false⟩,
  ⟨bstr ":status", bstr "500", false⟩,
  ⟨bstr "accept-charset", [], false⟩,
  ⟨bstr "accept-encoding", bstr "gzip, deflate", false⟩,
  ⟨bstr "accept-language", [], false⟩,
  ⟨bstr "accept-ranges", [], false⟩,
  ⟨bstr "accept", [], false⟩,
  ⟨bstr "access-control-allow-origin", [], false⟩,
  ⟨bstr "age", [], false⟩,
  ⟨bstr "allow", [], false⟩,
  ⟨bstr "authorization", [], false⟩,
  ⟨bstr "cache-control", [], false⟩,
  ⟨bstr "content-disposition", [], false⟩,
  ⟨bstr "content-encoding", [], false⟩,
  ⟨bstr "content-language", [], false⟩,
  ⟨bstr "content-length", [], false⟩,
  ⟨bstr "content-location", [], false⟩,
  ⟨bstr "content-range", [], false⟩,
  ⟨bstr "content-type", [], false⟩,
  ⟨bstr "cookie", [], false⟩,
  ⟨bstr "date", [], false⟩,
  ⟨bstr "etag", [], false⟩,
  ⟨bstr "expect", [], false⟩,
  ⟨bstr "expires", [], false⟩,
  ⟨bstr "from", [], false⟩,
  ⟨bstr "host", [], false⟩,
  ⟨bstr "if-match", [], false⟩,
  ⟨bstr "if-modified-since", [], false⟩,
  ⟨bstr "if-none-match", [], false⟩,
  ⟨bstr "if-range", [], false⟩,
  ⟨bstr "if-unmodified-since", [], false⟩,
  ⟨bstr "last-modified", [], false⟩,
  ⟨bstr "link", [], false⟩,
  ⟨bstr "location", [], false⟩,
  ⟨bstr "max-forwards", [], false⟩,
  ⟨bstr "proxy-authenticate", [], false⟩,
  ⟨bstr "proxy-authorization", [], false⟩,
  ⟨bstr "range", [], false⟩,
  ⟨bstr "referer", [], false⟩,
  ⟨bstr "refresh", [], false⟩,
  ⟨bstr "retry-after", [], false⟩,
  ⟨bstr "server", [], false⟩,
  ⟨bstr "set-cookie", [], false⟩,
  ⟨bstr "strict-transport-security", [], false⟩,
  ⟨bstr "transfer-encoding", [], false⟩,
  ⟨bstr "user-agent", [], false⟩,
  ⟨bstr "vary", [], false⟩,
  ⟨bstr "via", [], false⟩,
  ⟨bstr "www-authenticate", [], false⟩]

/-- src/unnamed/part_001 `indexTable`: the dynamic table plus budget. -/
structure IndexTable where
  dynamicTable : List Header
  currentSize : Nat
  maxSize : Nat
deriving DecidableEq, Repr

/-- src/unnamed/part_001 `NewIndexTable`. -/
def NewIndexTable : IndexTable := { dynamicTable := [], currentSize := 0, maxSize := 4096 }

/-- src/unnamed/part_001 `indexTable.Get`: index 1..61 reads the static
table, 62.. the dynamic table; 0 or past the end is `ErrIndexingTable`. -/
def IndexTable.Get (t : IndexTable) (index : Nat) : Except Unit Header :=
  if index = 0 then .error ()          -- index <= 0
  else if index < staticTable.length then .ok (staticTable.getD index ⟨[], [], false⟩)
  else
    let index2 := index - staticTable.length
    if index2 < t.dynamicTable.length then .ok (t.dynamicTable.getD index2 ⟨[], [], false⟩)
    else .error ()

/-- src/unnamed/part_001 `indexTable.reduce`.  The loop body reads
`i.dynamicTable[len(i.dynamicTable)]`, one past the end of the slice, so
the first iteration always panics: whenever `currentSize > maxSize` the
call is a runtime panic (`none`), otherwise the table is unchanged. -/
def IndexTable.reduce (t : IndexTable) : Option IndexTable :=
  if t.currentSize > t.maxSize then none
  else some t

/-- src/unnamed/part_001 `indexTable.Add`: push the header at the front,
charge its size, then `reduce`. -/
def IndexTable.Add (t : IndexTable) (header : Header) : Option IndexTable :=
  IndexTable.reduce
    { t with dynamicTable := header :: t.dynamicTable,
             currentSize := t.currentSize + header.Size }

/-- src/unnamed/part_001 `indexTable.UpdateMaxSize`: set the budget and
`reduce`. -/
def IndexTable.UpdateMaxSize (t : IndexTable) (size : Nat) : Option IndexTable :=
  IndexTable.reduce { t with maxSize := size }

/-- src/unnamed/part_001 `HuffmanCode`: a right-aligned code of `n` bits. -/
structure HuffmanCode where
  bits : Nat
  n : Nat

/-- src/unnamed/part_001 `eosByte`. -/
def eosByte : Nat := 256

/-- Slice 0 of the `huffmanCodings` table. -/
def huffmanCodings0 : List HuffmanCode := [
  ⟨0x1ff8, 13⟩,
  ⟨0x7fffd8, 23⟩,
  ⟨0xfffffe2, 28⟩,
  ⟨0xfffffe3, 28⟩,
  ⟨0xfffffe4, 28⟩,
  ⟨0xfffffe5, 28⟩,
  ⟨0xfffffe6, 28⟩,
  ⟨0xfffffe7, 28⟩,
  ⟨0xfffffe8, 28⟩,
  ⟨0xffffea, 24⟩,
  ⟨0x3ffffffc, 30⟩,
  ⟨0xfffffe9, 28⟩,
  ⟨0xfffffea, 28⟩,
  ⟨0x3ffffffd, 30⟩,
  ⟨0xfffffeb, 28⟩,
  ⟨0xfffffec, 28⟩,
  ⟨0xfffffed, 28⟩,
  ⟨0xfffffee, 28⟩,
  ⟨0xfffffef, 28⟩,
  ⟨0xffffff0, 28⟩,
  ⟨0xffffff1, 28⟩,
  ⟨0xffffff2, 28⟩,
  ⟨0x3ffffffe, 30⟩,
  ⟨0xffffff3, 28⟩,
  ⟨0xffffff4, 28⟩,
  ⟨0xffffff5, 28⟩,
  ⟨0xffffff6, 28⟩,
  ⟨0xffffff7, 28⟩,
  ⟨0xffffff8, 28⟩,
  ⟨0xffffff9, 28⟩,
  ⟨0xffffffa, 28⟩,
  ⟨0xffffffb, 28⟩,
  ⟨0x14, 6⟩,
  ⟨0x3f8, 10⟩,
  ⟨0x3f9, 10⟩,
  ⟨0xffa, 12⟩,
  ⟨0x1ff9, 13⟩,
  ⟨0x15, 6⟩,
  ⟨0xf8, 8⟩,
  ⟨0x7fa, 11⟩,
  ⟨0x3fa, 10⟩,
  ⟨0x3fb, 10⟩,
  ⟨0xf9, 8⟩,
  ⟨0x7fb, 11⟩,
  ⟨0xfa, 8⟩,
  ⟨0x16, 6⟩,
  ⟨0x17, 6⟩,
  ⟨0x18, 6⟩,
  ⟨0x0, 5⟩,
  ⟨0x1, 5⟩,
  ⟨0x2, 5⟩,
  ⟨0x19, 6⟩]

/-- Slice 1 of the `huffmanCodings` table. -/
def huffmanCodings1 : List HuffmanCode := [
  ⟨0x1a, 6⟩,
  ⟨0x1b, 6⟩,
  ⟨0x1c, 6⟩,
  ⟨0x1d, 6⟩,
  ⟨0x1e, 6⟩,
  ⟨0x1f, 6⟩,
  ⟨0x5c, 7⟩,
  ⟨0xfb, 8⟩,
  ⟨0x7ffc, 15⟩,
  ⟨0x20, 6⟩,
  ⟨0xffb, 12⟩,
  ⟨0x3fc, 10⟩,
  ⟨0x1ffa, 13⟩,
  ⟨0x21, 6⟩,
  ⟨0x5d, 7⟩,
  ⟨0x5e, 7⟩,
  ⟨0x5f, 7⟩,
  ⟨0x60, 7⟩,
  ⟨0x61, 7⟩,
  ⟨0x62, 7⟩,
  ⟨0x63, 7⟩,
  ⟨0x64, 7⟩,
  ⟨0x65, 7⟩,
  ⟨0x66, 7⟩,
  ⟨0x67, 7⟩,
  ⟨0x68, 7⟩,
  ⟨0x69, 7⟩,
  ⟨0x6a, 7⟩,
  ⟨0x6b, 7⟩,
  ⟨0x6c, 7⟩,
  ⟨0x6d, 7⟩,
  ⟨0x6e, 7⟩,
  ⟨0x6f, 7⟩,
  ⟨0x70, 7⟩,
  ⟨0x71, 7⟩,
  ⟨0x72, 7⟩,
  ⟨0xfc, 8⟩,
  ⟨0x73, 7⟩,
  ⟨0xfd, 8⟩,
  ⟨0x1ffb, 13⟩,
  ⟨0x7fff0, 19⟩,
  ⟨0x1ffc, 13⟩,
  ⟨0x3ffc, 14⟩,
  ⟨0x22, 6⟩,
  ⟨0x7ffd, 15⟩,
  ⟨0x3, 5⟩,
  ⟨0x23, 6⟩,
  ⟨0x4, 5⟩,
  ⟨0x24, 6⟩,
  ⟨0x5, 5⟩,
  ⟨0x25, 6⟩,
  ⟨0x26, 6⟩]

/-- Slice 2 of the `huffmanCodings` table. -/
def huffmanCodings2 : List HuffmanCode := [
  ⟨0x27, 6⟩,
  ⟨0x6, 5⟩,
  ⟨0x74, 7⟩,
  ⟨0x75, 7⟩,
  ⟨0x28, 6⟩,
  ⟨0x29, 6⟩,
  ⟨0x2a, 6⟩,
  ⟨0x7, 5⟩,
  ⟨0x2b, 6⟩,
  ⟨0x76, 7⟩,
  ⟨0x2c, 6⟩,
  ⟨0x8, 5⟩,
  ⟨0x9, 5⟩,
  ⟨0x2d, 6⟩,
  ⟨0x77, 7⟩,
  ⟨0x78, 7⟩,
  ⟨0x79, 7⟩,
  ⟨0x7a, 7⟩,
  ⟨0x7b, 7⟩,
  ⟨0x7ffe, 15⟩,
  ⟨0x7fc, 11⟩,
  ⟨0x3ffd, 14⟩,
  ⟨0x1ffd, 13⟩,
  ⟨0xffffffc, 28⟩,
  ⟨0xfffe6, 20⟩,
  ⟨0x3fffd2, 22⟩,
  ⟨0xfffe7, 20⟩,
  ⟨0xfffe8, 20⟩,
  ⟨0x3fffd3, 22⟩,
  ⟨0x3fffd4, 22⟩,
  ⟨0x3fffd5, 22⟩,
  ⟨0x7fffd9, 23⟩,
  ⟨0x3fffd6, 22⟩,
  ⟨0x7fffda, 23⟩,
  ⟨0x7fffdb, 23⟩,
  ⟨0x7fffdc, 23⟩,
  ⟨0x7fffdd, 23⟩,
  ⟨0x7fffde, 23⟩,
  ⟨0xffffeb, 24⟩,
  ⟨0x7fffdf, 23⟩,
  ⟨0xffffec, 24⟩,
  ⟨0xffffed, 24⟩,
  ⟨0x3fffd7, 22⟩,
  ⟨0x7fffe0, 23⟩,
  ⟨0xffffee, 24⟩,
  ⟨0x7fffe1, 23⟩,
  ⟨0x7fffe2, 23⟩,
  ⟨0x7fffe3, 23⟩,
  ⟨0x7fffe4, 23⟩,
  ⟨0x1fffdc, 21⟩,
  ⟨0x3fffd8, 22⟩,
  ⟨0x7fffe5, 23⟩]

/-- Slice 3 of the `huffmanCodings` table. -/
def huffmanCodings3 : List HuffmanCode := [
  ⟨0x3fffd9, 22⟩,
  ⟨0x7fffe6, 23⟩,
  ⟨0x7fffe7, 23⟩,
  ⟨0xffffef, 24⟩,
  ⟨0x3fffda, 22⟩,
  ⟨0x1fffdd, 21⟩,
  ⟨0xfffe9, 20⟩,
  ⟨0x3fffdb, 22⟩,
  ⟨0x3fffdc, 22⟩,
  ⟨0x7fffe8, 23⟩,
  ⟨0x7fffe9, 23⟩,
  ⟨0x1fffde, 21⟩,
  ⟨0x7fffea, 23⟩,
  ⟨0x3fffdd, 22⟩,
  ⟨0x3fffde, 22⟩,
  ⟨0xfffff0, 24⟩,
  ⟨0x1fffdf, 21⟩,
  ⟨0x3fffdf, 22⟩,
  ⟨0x7fffeb, 23⟩,
  ⟨0x7fffec, 23⟩,
  ⟨0x1fffe0, 21⟩,
  ⟨0x1fffe1, 21⟩,
  ⟨0x3fffe0, 22⟩,
  ⟨0x1fffe2, 21⟩,
  ⟨0x7fffed, 23⟩,
  ⟨0x3fffe1, 22⟩,
  ⟨0x7fffee, 23⟩,
  ⟨0x7fffef, 23⟩,
  ⟨0xfffea, 20⟩,
  ⟨0x3fffe2, 22⟩,
  ⟨0x3fffe3, 22⟩,
  ⟨0x3fffe4, 22⟩,
  ⟨0x7ffff0, 23⟩,
  ⟨0x3fffe5, 22⟩,
  ⟨0x3fffe6, 22⟩,
  ⟨0x7ffff1, 23⟩,
  ⟨0x3ffffe0, 26⟩,
  ⟨0x3ffffe1, 26⟩,
  ⟨0xfffeb, 20⟩,
  ⟨0x7fff1, 19⟩,
  ⟨0x3fffe7, 22⟩,
  ⟨0x7ffff2, 23⟩,
  ⟨0x3fffe8, 22⟩,
  ⟨0x1ffffec, 25⟩,
  ⟨0x3ffffe2, 26⟩,
  ⟨0x3ffffe3, 26⟩,
  ⟨0x3ffffe4, 26⟩,
  ⟨0x7ffffde, 27⟩,
  ⟨0x7ffffdf, 27⟩,
  ⟨0x3ffffe5, 26⟩,
  ⟨0xfffff1, 24⟩,
  ⟨0x1ffffed, 25⟩]

/-- Slice 4 of the `huffmanCodings` table. -/
def huffmanCodings4 : List HuffmanCode := [
  ⟨0x7fff2, 19⟩,
  ⟨0x1fffe3, 21⟩,
  ⟨0x3ffffe6, 26⟩,
  ⟨0x7ffffe0, 27⟩,
  ⟨0x7ffffe1, 27⟩,
  ⟨0x3ffffe7, 26⟩,
  ⟨0x7ffffe2, 27⟩,
  ⟨0xfffff2, 24⟩,
  ⟨0x1fffe4, 21⟩,
  ⟨0x1fffe5, 21⟩,
  ⟨0x3ffffe8, 26⟩,
  ⟨0x3ffffe9, 26⟩,
  ⟨0xffffffd, 28⟩,
  ⟨0x7ffffe3, 27⟩,
  ⟨0x7ffffe4, 27⟩,
  ⟨0x7ffffe5, 27⟩,
  ⟨0xfffec, 20⟩,
  ⟨0xfffff3, 24⟩,
  ⟨0xfffed, 20⟩,
  ⟨0x1fffe6, 21⟩,
  ⟨0x3fffe9, 22⟩,
  ⟨0x1fffe7, 21⟩,
  ⟨0x1fffe8, 21⟩,
  ⟨0x7ffff3, 23⟩,
  ⟨0x3fffea, 22⟩,
  ⟨0x3fffeb, 22⟩,
  ⟨0x1ffffee, 25⟩,
  ⟨0x1ffffef, 25⟩,
  ⟨0xfffff4, 24⟩,
  ⟨0xfffff5, 24⟩,
  ⟨0x3ffffea, 26⟩,
  ⟨0x7ffff4, 23⟩,
  ⟨0x3ffffeb, 26⟩,
  ⟨0x7ffffe6, 27⟩,
  ⟨0x3ffffec, 26⟩,
  ⟨0x3ffffed, 26⟩,
  ⟨0x7ffffe7, 27⟩,
  ⟨0x7ffffe8, 27⟩,
  ⟨0x7ffffe9, 27⟩,
  ⟨0x7ffffea, 27⟩,
  ⟨0x7ffffeb, 27⟩,
  ⟨0xffffffe, 28⟩,
  ⟨0x7ffffec, 27⟩,
  ⟨0x7ffffed, 27⟩,
  ⟨0x7ffffee, 27⟩,
  ⟨0x7ffffef, 27⟩,
  ⟨0x7fffff0, 27⟩,
  ⟨0x3ffffee, 26⟩,
  ⟨0x3fffffff, 30⟩]

/-- src/unnamed/part_001 `huffmanCodings` (257 symbols, EOS last). -/
def huffmanCodings : List HuffmanCode :=
  huffmanCodings0 ++ huffmanCodings1 ++ huffmanCodings2 ++ huffmanCodings3 ++ huffmanCodings4

/-- src/hpack/huffman.go `HuffmanTreeNode`: optional children, optional
terminal symbol. -/
inductive HTree where
  | mk : Option HTree → Option HTree → Option Nat → HTree

/-- Child selection on a tree node (`node.left` / `node.right`). -/
def HTree.child (t : HTree) (right : Bool) : Option HTree :=
  match t with
  | .mk l r _ => if right then r else l

/-- Terminal symbol of a node (`node.value`). -/
def HTree.val : HTree → Option Nat
  | .mk _ _ v => v

/-- One insertion step of src/hpack/huffman.go `genHuffmanTree`: descend
`k` remaining bits of `bits` (most significant of the low `k` first),
creating nodes, and set the terminal value at the end. -/
def HTree.setVal : Option HTree → Nat → Nat → Nat → HTree
  | t, _, 0, value =>
    (match t with
     | none => .mk none none (some value)
     | some (.mk l r _) => .mk l r (some value))
  | t, bits, k+1, value =>
    (match t with
     | none =>
       if bits / 2 ^ k % 2 = 1 then .mk none (some (HTree.setVal none bits k value)) none
       else .mk (some (HTree.setVal none bits k value)) none none
     | some (.mk l r v) =>
       if bits / 2 ^ k % 2 = 1 then .mk l (some (HTree.setVal r bits k value)) v
       else .mk (some (HTree.setVal l bits k value)) r v)

/-- src/hpack/huffman.go `genHuffmanTree`: insert every coding, the list
index being the symbol. -/
def genHuffmanTree : HTree :=
  List.foldl
    (fun root (p : Nat × HuffmanCode) => HTree.setVal (some root) p.2.bits p.2.n p.1)
    (HTree.mk none none none) (List.enum huffmanCodings)

/-- src/hpack/huffman.go `HuffmanDecoder` inner loop over the bits of one
byte, `curBit` = 7 down to 0 (here `k+1` down to 1, bit index `k`).
State: current node, depth since the last emitted symbol, output bytes.
`none` models the nil-pointer dereference Go performs when a code path
leaves the tree; `Except.error` is the EOS decoding error. -/
def huffByte (root : HTree) (char : Nat) :
    Nat → HTree × Nat × List Nat → Option (Except Unit (HTree × Nat × List Nat))
  | 0, st => some (.ok st)
  | k+1, (node, depth, out) =>
    match node.child (char / 2 ^ k % 2 = 1) with
    | none => none
    | some node2 =>
      match node2.val with
      | some v =>
        if v = eosByte then some (.error ())
        else huffByte root char k (root, 0, out ++ [v % 256])
      | none => huffByte root char k (node2, depth + 1, out)

/-- src/hpack/huffman.go `HuffmanDecoder` outer loop over the input
bytes. -/
def huffBytes (root : HTree) :
    List Nat → HTree × Nat × List Nat → Option (Except Unit (HTree × Nat × List Nat))
  | [], st => some (.ok st)
  | c :: tl, st =>
    match huffByte root c 8 st with
    | none => none
    | some (.error e) => some (.error e)
    | some (.ok st2) => huffBytes root tl st2

/-- Final walk of src/hpack/huffman.go `HuffmanDecoder`: follow right
children to the end and return the value of that node. -/
def HTree.rightmost : HTree → Option Nat
  | .mk _ none v => v
  | .mk _ (some r) _ => r.rightmost

/-- src/hpack/huffman.go `HuffmanDecoder`.  A depth of 0 is exactly the
Go pointer test `node == huffmanTree` (the node is the root iff no bit
has been consumed since the last reset). -/
def HuffmanDecoder (bs : List Nat) : Option (Except Unit (List Nat)) :=
  match huffBytes genHuffmanTree bs (genHuffmanTree, 0, []) with
  | none => none
  | some (.error _) => some (.error ())
  | some (.ok (node, curDepth, out)) =>
    if curDepth = 0 then some (.ok out)
    else if curDepth > 7 then some (.error ())
    else
      match node.rightmost with
      | some v => if v = 256 then some (.ok out) else some (.error ())
      | none => some (.error ())

/-- src/hpack/decoder.go `decInt` inner loop.  The Go loop is
advance-then-read: each iteration first does `*bs = (*bs)[1:]` and then
reads `oct := (*bs)[0]`, and the `break` on a clear high bit happens
BEFORE the next advance, so the final continuation octet is read but
stays at the head of the slice.  The argument here is the slice as
already advanced (its head is the octet about to be read); an empty
slice is the Go panic of reading `(*bs)[0]` past the end. -/
def decIntLoop : List Nat → Nat → Nat → Option (Nat × List Nat)
  | [], _, _ => none
  | oct :: tl, i, m =>
    -- i += int(oct&127) << m ; m += 7 ; stop when the high bit is clear
    let i2 := i + oct % 128 * 2 ^ m
    if 128 ≤ oct then decIntLoop tl i2 (m + 7) else some (i2, oct :: tl)

/-- src/hpack/decoder.go `decInt`: decode an integer with an `nbits`-bit
first-octet mask, returning the value and the unconsumed octets. -/
def decInt (bs : List Nat) (nbits : Nat) : Option (Nat × List Nat) :=
  match bs with
  | [] => none
  | b :: tl =>
    let mask := 2 ^ nbits - 1
    let i := b % 2 ^ nbits   -- int((*bs)[0]) & mask
    if i < mask then some (i, tl)
    else decIntLoop tl i 0

/-- src/hpack/decoder.go `encodeInt` continuation loop: emit `num` in
7-bit groups, least significant first, setting the high bit on every
group except the last. -/
def encIntLoop (num : Nat) : List Nat :=
  let curByte := num % 128     -- curByte = byte(num & 0x7f)
  let rest := num / 128        -- num >>= 7
  if h : rest = 0 then [curByte]
  else (curByte + 128) :: encIntLoop rest
termination_by num
decreasing_by
  have h128 : 0 < num := by
    rcases Nat.eq_zero_or_pos num with h0 | h0
    · subst h0; simp at h
    · exact h0
  exact Nat.div_lt_self h128 (by norm_num)

/-- src/hpack/decoder.go `encodeInt`: integer with an `nbits`-bit
first-octet mask, ORed (here: added, the bits are disjoint) into
`headerByte`. -/
def encodeInt (headerByte nbits num : Nat) : List Nat :=
  let mask := 2 ^ nbits - 1
  if num < mask then [headerByte + num]
  else (headerByte + mask) :: encIntLoop (num - mask)

/-- src/hpack/decoder.go `readStringLiteral`: length-governed string,
optionally Huffman coded (high bit of the first octet).  `none` is a
panic (out-of-range slice), `Except.error` a decoding error. -/
def readStringLiteral (bs : List Nat) : Option (Except Unit (List Nat × List Nat)) :=
  match bs with
  | [] => none                       -- (*bs)[0] panics
  | b :: _ =>
    let huffman := 128 ≤ b           -- (*bs)[0] & 0x80 != 0
    match decInt bs 7 with
    | none => none
    | some (n, rest) =>
      if n ≤ rest.length then        -- dec := (*bs)[:n], else panic
        if huffman then
          match HuffmanDecoder (rest.take n) with
          | none => none
          | some (.error _) => some (.error ())
          | some (.ok s) => some (.ok (s, rest.drop n))
        else some (.ok (rest.take n, rest.drop n))
      else none

/-- src/hpack/decoder.go `HPackDecoder.readHeaderFieldInternal`: a
nonzero index reuses the name of that entry, index 0 reads a name literal;
the value is always a literal. -/
def readHeaderFieldInternal (t : IndexTable) (bs : List Nat) (idx : Nat) :
    Option (Except Unit (Header × List Nat)) :=
  if idx > 0 then
    match t.Get idx with
    | .error _ => some (.error ())
    | .ok header =>
      match readStringLiteral bs with
      | none => none
      | some (.error _) => some (.error ())
      | some (.ok (val, rest)) =>
        some (.ok (⟨header.name, val, false⟩, rest))
  else
    match readStringLiteral bs with
    | none => none
    | some (.error _) => some (.error ())
    | some (.ok (name, rest)) =>
      match readStringLiteral rest with
      | none => none
      | some (.error _) => some (.error ())
      | some (.ok (val, rest2)) =>
        some (.ok (⟨name, val, false⟩, rest2))

/-- Outcome of a call to `HPackDecoder.Decode`: a normal return with the
header list and the updated index table, a returned error, a
runtime panic, or non-termination (the gas ran out without the input
shrinking). -/
inductive DecRes where
  | ok : List Header → IndexTable → DecRes
  | fail : DecRes
  | panic : DecRes
  | diverge : DecRes
deriving DecidableEq, Repr

/-- src/hpack/decoder.go `HPackDecoder.Decode` loop, one gas unit per
iteration.  The first octet of a field selects the representation by its
high bits (transliterated: `field & 0x80 != 0` is `128 ≤ field`,
`field & 0xc0 == 0x40` is `field / 64 == 1`, `field & 0xf0 == 0` is
`field / 16 == 0`, `field & 0xf0 == 0x10` is `field / 16 == 1`,
`field & 0xe0 == 0x20` is `field / 32 == 1`).  The size-update branch is
the literal transliteration of the Go body: a no-op that leaves `bs`
untouched (`// TODO: update dynamic table size`), as is the
nothing-matched fallthrough. -/
def decodeLoop : Nat → IndexTable → List Nat → List Header → DecRes
  | 0, _, _, _ => .diverge
  | gas+1, t, bs, acc =>
    match bs with
    | [] => .ok acc t
    | field :: _ =>
      if 128 ≤ field then                    -- indexed header field
        match decInt bs 7 with
        | none => .panic
        | some (idx, rest) =>
          match t.Get idx with
          | .error _ => .fail
          | .ok header => decodeLoop gas t rest (acc ++ [header])
      else if field / 64 = 1 then            -- literal with incremental indexing
        match decInt bs 6 with
        | none => .panic
        | some (idx, rest) =>
          match readHeaderFieldInternal t rest idx with
          | none => .panic
          | some (.error _) => .fail
          | some (.ok (header, rest2)) =>
            match t.Add header with
            | none => .panic
            | some t2 => decodeLoop gas t2 rest2 (acc ++ [header])
      else if field / 16 = 0 ∨ field / 16 = 1 then  -- literal, no/never indexing
        match decInt bs 4 with
        | none => .panic
        | some (idx, rest) =>
          match readHeaderFieldInternal t rest idx with
          | none => .panic
          | some (.error _) => .fail
          | some (.ok (header, rest2)) =>
            decodeLoop gas t rest2
              (acc ++ [{ header with neverIndexed := field / 16 = 1 }])
      else if field / 32 = 1 then            -- dynamic table size update: no-op body
        decodeLoop gas t bs acc
      else                                   -- no representation matched: no-op body
        decodeLoop gas t bs acc

/-- src/hpack/decoder.go `HPackDecoder.Decode`.  Every terminating loop
iteration consumes at least one octet, so `bs.length + 1` gas is enough
for any terminating run; `DecRes.diverge` therefore means the Go loop
really never exits. -/
def Decode (t : IndexTable) (bs : List Nat) : DecRes :=
  decodeLoop (bs.length + 1) t bs []

/-- src/hpack/decoder.go `encodeStringLiteral`: 7-bit-mask length, then
the raw (non-Huffman) octets. -/
def encodeStringLiteral (str : List Nat) : List Nat :=
  encodeInt 0 7 str.length ++ str

/-- src/hpack/decoder.go `HPackEncoder.Encode`: each field as a literal
without indexing (leading octet 0), name and value as raw literals. -/
def Encode : List Header → List Nat
  | [] => []
  | h :: tl => 0 :: (encodeStringLiteral h.name ++ encodeStringLiteral h.value) ++ Encode tl


end Hpack

namespace Http2

/-- Big-endian 32-bit quantity from four bytes
(`binary.BigEndian.Uint32`). -/
def be32 (b0 b1 b2 b3 : Nat) : Nat :=
  b0 * 2 ^ 24 + b1 * 2 ^ 16 + b2 * 2 ^ 8 + b3

/-- `binary.BigEndian.AppendUint32`: four big-endian bytes of `n`. -/
def appendUint32 (n : Nat) : List Nat :=
  [n / 2 ^ 24 % 256, n / 2 ^ 16 % 256, n / 2 ^ 8 % 256, n % 256]

/-- src/http2/frame.go `FrameHeader`: length (24-bit), type, flags,
stream id (31-bit, reserved bit masked). -/
structure FrameHeader where
  length : Nat
  ftype : Nat
  flags : Nat
  streamId : Nat
deriving DecidableEq, Repr

/-- src/http2/frame.go `parseHeader`: nine octets; the stream id is
masked with `1<<31 - 1` (here `% 2 ^ 31`). -/
def parseHeaderBytes (bs : List Nat) : Option FrameHeader :=
  match bs with
  | b0 :: b1 :: b2 :: b3 :: b4 :: b5 :: b6 :: b7 :: b8 :: _ =>
    some ⟨b0 * 2 ^ 16 + b1 * 2 ^ 8 + b2, b3, b4, be32 b5 b6 b7 b8 % 2 ^ 31⟩
  | _ => none

/-- src/http2/frame.go `FrameHeader.hasFlag` for a single-bit flag:
`flags & flag == flag` is `flags / flag % 2 == 1`. -/
def FrameHeader.hasFlag (fr : FrameHeader) (flag : Nat) : Bool :=
  fr.flags / flag % 2 = 1

/-- src/http2/frame.go `Framed`: raw header and payload. -/
structure Framed where
  header : FrameHeader
  payload : List Nat
deriving DecidableEq, Repr

/-- src/http2/frame.go `EncodeFrame`: nine-octet header then payload. -/
def EncodeFrame (payload : List Nat) (frameType flags streamid : Nat) : List Nat :=
  let n := payload.length
  [n / 2 ^ 16 % 256, n / 2 ^ 8 % 256, n % 256, frameType, flags] ++
    appendUint32 streamid ++ payload

/-- src/http2/frame.go `DataFrame` after `Decode`. -/
structure DataFrame where
  framed : Framed
  padded : Bool
  endStream : Bool
  padLength : Nat
  data : List Nat
deriving DecidableEq, Repr

/-- src/http2/frame.go `DataFrame.Decode`: optional pad-length octet,
then `bs[:len(bs)-padLength]`; a pad length past the end panics. -/
def dataFrameDecode (framed : Framed) : Option DataFrame :=
  let padded := framed.header.hasFlag 0x8
  let endStream := framed.header.hasFlag 0x1
  match (if padded then framed.payload.tail? else some framed.payload) with
  | none => none                       -- bs[0] on an empty slice
  | some bs =>
    let padLength := if padded then framed.payload.headD 0 else 0
    if padLength ≤ bs.length then
      some ⟨framed, padded, endStream, padLength, bs.take (bs.length - padLength)⟩
    else none                          -- negative slice bound

/-- src/http2/frame.go `DataFrame.Encode`: only `END_STREAM` survives;
padding is never emitted. -/
def DataFrame.Encode (d : DataFrame) : List Nat :=
  EncodeFrame d.data 0 (if d.endStream then 1 else 0) d.framed.header.streamId

/-- src/http2/frame.go `HeadersFrame` after `Decode`. -/
structure HeadersFrame where
  framed : Framed
  endStream : Bool
  endHeaders : Bool
  priority : Bool
  padded : Bool
  padLength : Nat
  streamDependency : Nat
  exclusiveStreamDep : Bool
  weight : Nat
  blockFragment : List Nat
  headers : List Hpack.Header
deriving DecidableEq, Repr

/-- src/http2/frame.go `HeadersFrame.Decode`.  After the optional
pad-length octet, the PRIORITY section reads the exclusive bit and
31-bit dependency from the first four octets and the weight from
`bs[4]`, but then advances only four octets (`bs = bs[4:]`), so the
weight octet is left at the head of the block fragment.  Fewer than five
octets in the priority section, or a pad length past the end, panics. -/
def headersFrameDecode (framed : Framed) : Option HeadersFrame :=
  let endStream := framed.header.hasFlag 0x1
  let endHeaders := framed.header.hasFlag 0x4
  let priority := framed.header.hasFlag 0x20
  let padded := framed.header.hasFlag 0x8
  match (if padded then framed.payload.tail? else some framed.payload) with
  | none => none                       -- bs[0] on an empty slice
  | some bs0 =>
    let padLength := if padded then framed.payload.headD 0 else 0
    let prio :=
      if priority then
        match bs0 with
        | b0 :: b1 :: b2 :: b3 :: b4 :: _ =>
          some (128 ≤ b0, be32 b0 b1 b2 b3 % 2 ^ 31, b4, bs0.drop 4)
        | _ => none                    -- bs[0..4] out of range
      else some (false, 0, 0, bs0)
    match prio with
    | none => none
    | some (excl, dep, weight, bs) =>
      if padLength ≤ bs.length then
        some ⟨framed, endStream, endHeaders, priority, padded, padLength,
              dep, excl, weight, bs.take (bs.length - padLength), []⟩
      else none                        -- negative slice bound

/-- src/http2/frame.go `HeadersFrame.Encode`. -/
def HeadersFrame.Encode (h : HeadersFrame) : List Nat :=
  let flags := (if h.endStream then 0x1 else 0) + (if h.endHeaders then 0x4 else 0) +
    (if h.padded then 0x8 else 0) + (if h.priority then 0x20 else 0)
  let buf := (if h.padded then [h.padLength] else []) ++
    (if h.priority then
      [(if h.exclusiveStreamDep then 128 else 0) ||| (h.streamDependency / 2 ^ 24 % 256),
       h.streamDependency / 2 ^ 16 % 256, h.streamDependency / 2 ^ 8 % 256,
       h.streamDependency % 256, h.weight] else []) ++
    h.blockFragment ++ (if h.padded then List.replicate h.padLength 0 else [])
  EncodeFrame buf 1 flags h.framed.header.streamId

/-- src/http2/frame.go `RSTStreamFrame` after `Decode`. -/
structure RSTStreamFrame where
  framed : Framed
  errorCode : Nat
deriving DecidableEq, Repr

/-- src/http2/frame.go `RSTStreamFrame.Decode`: 4-byte code, values past
`ErrHTTP11Required` (13) coerced to `ErrInternalError` (2). -/
def rstStreamFrameDecode (framed : Framed) : Option RSTStreamFrame :=
  match framed.payload with
  | b0 :: b1 :: b2 :: b3 :: _ =>
    let code := be32 b0 b1 b2 b3
    some ⟨framed, if code > 13 then 2 else code⟩
  | _ => none                          -- Uint32 out of range

/-- src/http2/frame.go `RSTStreamFrame.Encode`. -/
def RSTStreamFrame.Encode (r : RSTStreamFrame) : List Nat :=
  EncodeFrame (appendUint32 r.errorCode) 3 0 r.framed.header.streamId

/-- src/http2/frame.go `SettingFrameArgs`; the identifier has Go type
`SettingsParam = uint8`. -/
structure SettingFrameArgs where
  param : Nat
  value : Nat
deriving DecidableEq, Repr

/-- src/http2/frame.go `SettingsFrame` after `Decode`. -/
structure SettingsFrame where
  framed : Framed
  ack : Bool
  args : List SettingFrameArgs
deriving DecidableEq, Repr

/-- src/http2/frame.go `SettingsFrame.Decode` loop: 6-octet entries
(16-bit identifier, 32-bit value); a leftover of 1..5 octets panics in
`binary.BigEndian` (out-of-range read). -/
def settingsDecodeLoop : List Nat → List SettingFrameArgs → Option (List SettingFrameArgs)
  | [], acc => some acc
  | b0 :: b1 :: b2 :: b3 :: b4 :: b5 :: tl, acc =>
    settingsDecodeLoop tl (acc ++ [⟨b0 * 2 ^ 8 + b1, be32 b2 b3 b4 b5⟩])
  | _, _ => none

/-- src/http2/frame.go `SettingsFrame.Decode`. -/
def settingsFrameDecode (framed : Framed) : Option SettingsFrame :=
  match settingsDecodeLoop framed.payload [] with
  | none => none
  | some args => some ⟨framed, framed.header.hasFlag 0x1, args⟩

/-- src/http2/frame.go `SettingsFrame.Encode`: for each entry the
identifier is written as THREE octets (`p>>16`, `p>>8`, `p`) followed by
the 4-octet value — seven octets per entry, not the six the decoder
expects. -/
def SettingsFrame.Encode (s : SettingsFrame) : List Nat :=
  let payload := s.args.foldl
    (fun acc a =>
      acc ++ [a.param / 2 ^ 16 % 256, a.param / 2 ^ 8 % 256, a.param % 256] ++
        appendUint32 a.value) []
  EncodeFrame payload 4 (if s.ack then 1 else 0) 0

/-- src/http2/frame.go `PingFrame` after `Decode` (note: `Decode` never
sets `Ack` from the flags; it stays false). -/
structure PingFrame where
  framed : Framed
  ack : Bool
  opaq : List Nat
deriving DecidableEq, Repr

/-- src/http2/frame.go `PingFrame.Decode`. -/
def pingFrameDecode (framed : Framed) : Option PingFrame :=
  some ⟨framed, false, framed.payload⟩

/-- src/http2/frame.go `PingFrame.Encode`. -/
def PingFrame.Encode (p : PingFrame) : List Nat :=
  EncodeFrame p.opaq 6 (if p.ack then 1 else 0) 0

/-- src/http2/frame.go `GoAwayFrame` after `Decode`. -/
structure GoAwayFrame where
  framed : Framed
  lastStreamId : Nat
  errorCode : Nat
  opaq : List Nat
deriving DecidableEq, Repr

/-- src/http2/frame.go `GoAwayFrame.Decode`: 31-bit last stream id,
32-bit code, optional debug data. -/
def goAwayFrameDecode (framed : Framed) : Option GoAwayFrame :=
  match framed.payload with
  | b0 :: b1 :: b2 :: b3 :: b4 :: b5 :: b6 :: b7 :: _ =>
    some ⟨framed, be32 b0 b1 b2 b3 % 2 ^ 31, be32 b4 b5 b6 b7,
          if framed.payload.length > 8 then framed.payload.drop 8 else []⟩
  | _ => none                          -- Uint32 out of range

/-- src/http2/frame.go `GoAwayFrame.Encode`. -/
def GoAwayFrame.Encode (g : GoAwayFrame) : List Nat :=
  EncodeFrame (appendUint32 g.lastStreamId ++ appendUint32 g.errorCode ++ g.opaq) 7 0 0

/-- src/http2/frame.go `WindowUpdateFrame` after `Decode`. -/
structure WindowUpdateFrame where
  framed : Framed
  sizeIncrement : Nat
deriving DecidableEq, Repr

/-- src/http2/frame.go `WindowUpdateFrame.Decode`. -/
def windowUpdateFrameDecode (framed : Framed) : Option WindowUpdateFrame :=
  match framed.payload with
  | b0 :: b1 :: b2 :: b3 :: _ => some ⟨framed, be32 b0 b1 b2 b3⟩
  | _ => none                          -- Uint32 out of range

/-- src/http2/frame.go `WindowUpdateFrame.Encode`. -/
def WindowUpdateFrame.Encode (w : WindowUpdateFrame) : List Nat :=
  EncodeFrame (appendUint32 w.sizeIncrement) 8 0 0

/-- src/http2/frame.go `ContinuationFrame` after `Decode`. -/
structure ContinuationFrame where
  framed : Framed
  endHeaders : Bool
  blockFragment : List Nat
  headers : List Hpack.Header
deriving DecidableEq, Repr

/-- src/http2/frame.go `ContinuationFrame.Decode`. -/
def continuationFrameDecode (framed : Framed) : Option ContinuationFrame :=
  some ⟨framed, framed.header.hasFlag 0x4, framed.payload, []⟩

/-- src/http2/frame.go `ContinuationFrame.Encode`. -/
def ContinuationFrame.Encode (c : ContinuationFrame) : List Nat :=
  EncodeFrame c.blockFragment 9 (if c.endHeaders then 0x4 else 0) c.framed.header.streamId

/-- A typed frame as produced by src/http2/frame.go `ParseFrame`. -/
inductive ParsedFrame where
  | data : DataFrame → ParsedFrame
  | headers : HeadersFrame → ParsedFrame
  | rstStream : RSTStreamFrame → ParsedFrame
  | settings : SettingsFrame → ParsedFrame
  | ping : PingFrame → ParsedFrame
  | goAway : GoAwayFrame → ParsedFrame
  | windowUpdate : WindowUpdateFrame → ParsedFrame
  | continuation : ContinuationFrame → ParsedFrame
deriving DecidableEq, Repr

/-- The `Header()` accessor shared by every frame type. -/
def ParsedFrame.header : ParsedFrame → FrameHeader
  | .data f => f.framed.header
  | .headers f => f.framed.header
  | .rstStream f => f.framed.header
  | .settings f => f.framed.header
  | .ping f => f.framed.header
  | .goAway f => f.framed.header
  | .windowUpdate f => f.framed.header
  | .continuation f => f.framed.header

/-- Result of src/http2/frame.go `ParseFrame`. -/
inductive ParseResult where
  | ok : ParsedFrame → ParseResult
  | errUnknown : ParseResult
  | errExceedsMax : ParseResult
  | errRead : ParseResult
  | panic : ParseResult
deriving DecidableEq, Repr

/-- src/http2/frame.go `ParseFrame` over a byte stream: parse the
nine-octet header; DATA/HEADERS over `maxSize` is `ErrExceedsMaxFrameSize`;
read `length` payload octets (a short read is an io error); dispatch on
the type, unknown types (PRIORITY and PUSH_PROMISE included) being
`ErrUnknownFrame`. -/
def ParseFrame (input : List Nat) (maxSize : Nat) : ParseResult :=
  match parseHeaderBytes input with
  | none => .errRead
  | some h =>
    if (h.ftype = 1 ∨ h.ftype = 0) ∧ h.length > maxSize then .errExceedsMax
    else
      let rest := input.drop 9
      if rest.length < h.length then .errRead
      else
        let framed : Framed := ⟨h, rest.take h.length⟩
        if h.ftype = 0 then
          match dataFrameDecode framed with
          | none => .panic
          | some f => .ok (.data f)
        else if h.ftype = 1 then
          match headersFrameDecode framed with
          | none => .panic
          | some f => .ok (.headers f)
        else if h.ftype = 3 then
          match rstStreamFrameDecode framed with
          | none => .panic
          | some f => .ok (.rstStream f)
        else if h.ftype = 4 then
          match settingsFrameDecode framed with
          | none => .panic
          | some f => .ok (.settings f)
        else if h.ftype = 6 then
          match pingFrameDecode framed with
          | none => .panic
          | some f => .ok (.ping f)
        else if h.ftype = 7 then
          match goAwayFrameDecode framed with
          | none => .panic
          | some f => .ok (.goAway f)
        else if h.ftype = 8 then
          match windowUpdateFrameDecode framed with
          | none => .panic
          | some f => .ok (.windowUpdate f)
        else if h.ftype = 9 then
          match continuationFrameDecode framed with
          | none => .panic
          | some f => .ok (.continuation f)
        else .errUnknown

/-! ### Stream machine (src/http2/stream.go) -/

/-- src/http2/stream.go `StreamState` (the Go source mislabels
reserved-remote with the reserved-local string; states are distinct
values here). -/
inductive StreamState where
  | idle
  | opened
  | closed
  | reservedLocal
  | halfClosedRemote
  | reservedRemote
  | halfClosedLocal
deriving DecidableEq, Repr

/-- Observable effects of one step of the stream task in
src/http2/stream.go `handleFrames`:  `sendRST id code` is
`writeFrame(&RSTStreamFrame{Framed{Header{StreamID: id}}, code})`,
`transition` the outgoing `StreamTransitionEvent`, `recordHeaders` the
writes into `reqHeaders`, `bodyWrite`/`bodyEOF` the calls on the request
body buffer, and `spawnHandler` the idempotent `handlerDoer.Do(goHandle)`. -/
inductive StreamAction where
  | sendRST : Nat → Nat → StreamAction
  | transition : StreamState → StreamAction
  | recordHeaders : List Hpack.Header → StreamAction
  | bodyWrite : List Nat → StreamAction
  | bodyEOF : StreamAction
  | spawnHandler : StreamAction
deriving DecidableEq, Repr

/-- One incoming-frame step of src/http2/stream.go `handleFrames` for
stream `id` in state `st`: an RST_STREAM moves to closed before any
state dispatch; otherwise `handleIdle` / `handleOpen` /
`handleHalfClosedRemote` run, the last treating every frame as a
stream-closed error (`streamClosedErr`, code `ErrStreamClosed` = 0x5). -/
def streamRecvFrame (id : Nat) (st : StreamState) (fr : ParsedFrame) :
    StreamState × List StreamAction :=
  match fr with
  | .rstStream _ => (.closed, [.transition .closed])
  | _ =>
    match st with
    | .idle =>
      match fr with
      | .headers hf =>
        if hf.endStream then
          (.halfClosedRemote,
           [.recordHeaders hf.headers, .transition .opened, .spawnHandler,
            .bodyEOF, .transition .halfClosedRemote])
        else
          (.opened, [.recordHeaders hf.headers, .transition .opened, .spawnHandler])
      | _ => (.idle, [])
    | .opened =>
      match fr with
      | .data df =>
        if df.endStream then
          (.halfClosedRemote,
           [.spawnHandler, .bodyWrite df.data, .bodyEOF, .transition .halfClosedRemote])
        else (.opened, [.spawnHandler, .bodyWrite df.data])
      | _ => (.opened, [.spawnHandler])
    | .halfClosedRemote => (.closed, [.sendRST id 5, .transition .closed])
    | other => (other, [])

/-- src/http2/stream.go `StreamReader`: the request-body buffer with its
end-of-stream flag. -/
structure StreamReader where
  rbuf : List Nat
  eof : Bool
deriving DecidableEq, Repr

/-- src/http2/stream.go `NewStreamReader`. -/
def NewStreamReader : StreamReader := ⟨[], false⟩

/-- src/http2/stream.go `StreamReader.Read`: `bytes.Buffer.Read` copies
`min capacity len(rbuf)` bytes (its own io.EOF is discarded); the result
error is io.EOF (`true`) exactly when the eof flag is set and the buffer
is empty after the copy. -/
def StreamReader.Read (s : StreamReader) (capacity : Nat) : Nat × Bool × StreamReader :=
  let n := min capacity s.rbuf.length
  let s2 : StreamReader := ⟨s.rbuf.drop n, s.eof⟩
  if s.eof ∧ s2.rbuf.length = 0 then (n, true, s2) else (n, false, s2)

/-- src/http2/stream.go `StreamReader.Write`. -/
def StreamReader.Write (s : StreamReader) (bs : List Nat) : Nat × StreamReader :=
  (bs.length, ⟨s.rbuf ++ bs, s.eof⟩)

/-- src/http2/stream.go `StreamReader.EOF`. -/
def StreamReader.EOF (s : StreamReader) : StreamReader := ⟨s.rbuf, true⟩

/-! ### Connection settings (src/unnamed/part_005) and read loop
(src/unnamed/part_003, first `Connection` version, the claim sources) -/

/-- src/unnamed/part_005 `ConnectionSettings`. -/
structure ConnectionSettings where
  headerTableSize : Nat
  enablePush : Bool
  maxConcurrentStreams : Nat
  initialWindowSize : Nat
  maxFrameSize : Nat
  maxHeaderListSize : Option Nat
deriving DecidableEq, Repr

/-- src/unnamed/part_005 `NewSettings`. -/
def NewSettings : ConnectionSettings := ⟨4096, true, 64, 65535, 16384, none⟩

/-- src/unnamed/part_005 `ConnectionSettings.SetValue`. -/
def ConnectionSettings.SetValue (s : ConnectionSettings) (param value : Nat) :
    ConnectionSettings :=
  if param = 1 then { s with headerTableSize := value }
  else if param = 2 then { s with enablePush := value = 1 }
  else if param = 3 then { s with maxConcurrentStreams := value }
  else if param = 4 then { s with initialWindowSize := value }
  else if param = 5 then { s with maxFrameSize := value }
  else if param = 6 then { s with maxHeaderListSize := some value }
  else s

/-- One item handed to the `handleH2` loop by `readFrame`: a parsed
frame, an unknown frame type (`readFrame` returns a nil frame and nil
error), an over-long DATA/HEADERS (`ErrExceedsMaxFrameSize`), or any
other read/parse failure. -/
inductive WireItem where
  | frame : ParsedFrame → WireItem
  | unknown : WireItem
  | tooBig : WireItem
  | readErr : WireItem
deriving DecidableEq, Repr

/-- Frames enqueued on the writer by the read loop: the SETTINGS ack,
the PING ack (same payload), and GOAWAY with last-stream-id and error
code. -/
inductive OutFrame where
  | settingsAck : OutFrame
  | pingAck : List Nat → OutFrame
  | goAway : Nat → Nat → OutFrame
deriving DecidableEq, Repr

/-- The reader-visible connection state: highest stream id seen, the
registered stream ids (keys of `streamHandlers`), the negotiated
settings and the HPACK decoder table. -/
structure ConnState where
  maxStreamId : Nat
  registered : List Nat
  settings : ConnectionSettings
  decoderTable : Hpack.IndexTable
deriving DecidableEq, Repr

/-- src/unnamed/part_003 `Connection.newStream`: ids not above
`maxStreamId` are ignored entirely; otherwise the maximum is raised and
the id registered if new. -/
def newStream (c : ConnState) (id : Nat) : ConnState :=
  if c.maxStreamId < id then
    let c2 := { c with maxStreamId := id }
    if c2.registered.contains id then c2
    else { c2 with registered := id :: c2.registered }
  else c

/-- The errors `handleH2` can return (`ErrConnProtocolError`,
`ErrConnStreamError`, an HPACK decode error, `ErrExceedsMaxFrameSize`,
other read errors). -/
inductive ConnError where
  | protocolError
  | streamError
  | frameSize
  | readError
  | decodeError
deriving DecidableEq, Repr

/-- Result of running the read loop on a finite item list: all input
consumed (the loop would block reading), a returned error, a Go panic,
or divergence (inherited from a diverging HPACK decode). -/
inductive H2Res where
  | ok : ConnState → List OutFrame → H2Res
  | connErr : ConnError → ConnState → List OutFrame → H2Res
  | panic : H2Res
  | diverge : H2Res
deriving DecidableEq, Repr

/-- Result of the CONTINUATION sub-loop of `handleH2`. -/
inductive ContRes where
  | done : List Hpack.Header → ConnState → List WireItem → List OutFrame → ContRes
  | errRes : ConnError → ConnState → List OutFrame → ContRes
  | blocked : ConnState → List OutFrame → ContRes
  | panicRes : ContRes
  | divergeRes : ContRes
deriving DecidableEq, Repr

/-- The `for !endHeaders` sub-loop of src/unnamed/part_003
`Connection.handleH2`: each further item must be a CONTINUATION on the
same stream id (a nil frame fails the type assertion and is also
`ErrConnProtocolError`); fragments are HPACK-decoded and appended until
END_HEADERS. -/
def contLoop : ConnState → Nat → List Hpack.Header → List WireItem → List OutFrame → ContRes
  | c, _, _, [], out => .blocked c out
  | c, sid, hdrs, item :: rest, out =>
    match item with
    | .readErr => .errRes .readError c out
    | .tooBig => .errRes .frameSize c (out ++ [.goAway c.maxStreamId 6])
    | .unknown => .errRes .protocolError c out
    | .frame f =>
      match f with
      | .continuation cf =>
        if cf.framed.header.streamId ≠ sid then .errRes .protocolError c out
        else
          match Hpack.Decode c.decoderTable cf.blockFragment with
          | .fail => .errRes .decodeError c out
          | .panic => .panicRes
          | .diverge => .divergeRes
          | .ok hs t2 =>
            let c2 := { c with decoderTable := t2 }
            if cf.endHeaders then .done (hdrs ++ hs) c2 rest out
            else contLoop c2 sid (hdrs ++ hs) rest out
      | _ => .errRes .protocolError c out

/-- Outcome of the type-switch body of one `handleH2` iteration, before
the frame is forwarded to its stream. -/
inductive SwitchRes where
  | next : ConnState → List WireItem → List OutFrame → SwitchRes
  | halt : H2Res → SwitchRes

/-- The type-switch of src/unnamed/part_003 `Connection.handleH2`:
HEADERS decodes its fragment and assembles CONTINUATIONs, then
`newStream`; SETTINGS (non-ack) applies every entry and enqueues an ack;
PING (non-ack) enqueues the ack; everything else falls through. -/
def handleSwitch (c : ConnState) (f : ParsedFrame) (rest : List WireItem)
    (out : List OutFrame) : SwitchRes :=
  match f with
  | .headers hf =>
    match Hpack.Decode c.decoderTable hf.blockFragment with
    | .fail => .halt (.connErr .decodeError c out)
    | .panic => .halt .panic
    | .diverge => .halt .diverge
    | .ok _ t2 =>
      let c2 := { c with decoderTable := t2 }
      let sid := f.header.streamId
      if hf.endHeaders then .next (newStream c2 sid) rest out
      else
        match contLoop c2 sid [] rest out with
        | .blocked c3 out2 => .halt (.ok c3 out2)
        | .errRes e c3 out2 => .halt (.connErr e c3 out2)
        | .panicRes => .halt .panic
        | .divergeRes => .halt .diverge
        | .done _ c3 rest2 out2 => .next (newStream c3 sid) rest2 out2
  | .settings sf =>
    if sf.ack then .next c rest out
    else
      let s2 := sf.args.foldl (fun s a => ConnectionSettings.SetValue s a.param a.value) c.settings
      .next { c with settings := s2 } rest (out ++ [.settingsAck])
  | .ping pf =>
    if pf.ack then .next c rest out
    else .next c rest (out ++ [.pingAck pf.opaq])
  | _ => .next c rest out

/-- src/unnamed/part_003 `Connection.handleH2`, one gas unit per outer
iteration.  Per iteration: a read error returns; an over-long frame
enqueues GOAWAY(frame-size-error) and returns; an unknown frame leaves
`frame` nil and the `frame.Header()` call below is a nil-pointer panic;
a positive even stream id is `ErrConnProtocolError`; then the type
switch runs and the frame is forwarded to its stream, an unregistered
id at or below `maxStreamId` being `ErrConnStreamError` and above it
`ErrConnProtocolError`. -/
def handleH2Loop : Nat → ConnState → List WireItem → List OutFrame → H2Res
  | 0, _, _, _ => .diverge
  | _ + 1, c, [], out => .ok c out
  | gas + 1, c, item :: rest, out =>
    match item with
    | .readErr => .connErr .readError c out
    | .tooBig => .connErr .frameSize c (out ++ [.goAway c.maxStreamId 6])
    | .unknown => .panic
    | .frame f =>
      let sid := f.header.streamId
      if 0 < sid ∧ sid % 2 = 0 then .connErr .protocolError c out
      else
        match handleSwitch c f rest out with
        | .halt r => r
        | .next c2 rest2 out2 =>
          if 0 < sid then
            if c2.registered.contains sid then handleH2Loop gas c2 rest2 out2
            else if sid ≤ c2.maxStreamId then .connErr .streamError c2 out2
            else .connErr .protocolError c2 out2
          else handleH2Loop gas c2 rest2 out2

/-- `Connection.handleH2` on a finite prefix of the input: every outer
iteration consumes at least one item, so `input.length + 1` gas covers
any run over the given items. -/
def handleH2 (c : ConnState) (input : List WireItem) : H2Res :=
  handleH2Loop (input.length + 1) c input []

/-- src/unnamed/part_003 `Connection.Handle` error handling around
`handleH2`: `ErrConnProtocolError` appends GOAWAY with
`ErrProtocolError` (0x1), `ErrConnStreamError` appends GOAWAY with
`ErrStreamClosed` (0x5), both carrying `maxStreamId`; other errors just
close. -/
def connHandle (c : ConnState) (input : List WireItem) : H2Res :=
  match handleH2 c input with
  | .connErr .protocolError c2 out =>
    .connErr .protocolError c2 (out ++ [.goAway c2.maxStreamId 1])
  | .connErr .streamError c2 out =>
    .connErr .streamError c2 (out ++ [.goAway c2.maxStreamId 5])
  | r => r

/-- A well-formed HEADERS frame as delivered to the read loop: only
END_HEADERS set, an empty block fragment, addressed to stream `id`. -/
def plainHeadersFrame (id : Nat) : ParsedFrame :=
  .headers ⟨⟨⟨0, 1, 4, id⟩, []⟩, false, true, false, false, 0, 0, false, 0, [], []⟩

/-- A DATA frame with empty payload addressed to stream `id`. -/
def plainDataFrame (id : Nat) : ParsedFrame :=
  .data ⟨⟨⟨0, 0, 0, id⟩, []⟩, false, false, 0, []⟩

end Http2

namespace Http11

/-- src/unnamed/part_000 `HTTP11Request` (marshalling fields).  The
`Headers` field is a Go `map[string]string`; its iteration order is
unspecified, so it is modelled as the key/value list in the order the
marshal loop happens to visit. -/
structure HTTP11Request where
  method : String
  path : String
  protocol : String
  headers : List (String × String)
deriving DecidableEq, Repr

/-- src/unnamed/part_000 `HTTP11Request.Marshal`: request line, one
`key: value` line per header in iteration order, blank line. -/
def Marshal (h1 : HTTP11Request) : String :=
  h1.method ++ " " ++ h1.path ++ " " ++ h1.protocol ++ "\r\n" ++
    (h1.headers.foldl (fun acc kv => acc ++ kv.1 ++ ": " ++ kv.2 ++ "\r\n") "") ++
    "\r\n"

/-- The 101 response of src/unnamed/part_003 `Connection.handleHandshake`:
`Marshal` of `{Method: "HTTP/1.1", Path: "101", Protocol: "Switching
Protocols", Headers: {"Connection": "Upgrade", "Upgrade": "h2c"}}`,
the two map entries visited in the order given. -/
def switchingResponse (order : List (String × String)) : String :=
  Marshal ⟨"HTTP/1.1", "101", "Switching Protocols", order⟩

end Http11

end Goh2

namespace Goh2

namespace Hpack

/-! ### Theorems: HPACK integer codec (claim C8) -/

/-- Claim C8: false of the code.  For values at or above the mask the
decode loop is advance-then-read and breaks before the next advance, so
the value comes back exactly but the final continuation octet is left at
the head of the slice instead of being consumed: for N = 5, v = 1337
(encoding 1f 9a 0a, followed by the octet 9) the unconsumed rest is
[0x0a, 9], not [9].  The below-mask path does consume exactly its one
octet.  The same slip makes `Decode` panic on the vector 0f0d8469f0b2ef
from the own TestDecoder of the repository, whose expected output is
content-length: 49137. -/
theorem claim_C8_intCodec_leftover :
    decInt (encodeInt 0 5 1337 ++ [9]) 5 = some (1337, [10, 9]) ∧
    decInt (encodeInt 0 5 1337 ++ [9]) 5 ≠ some (1337, [9]) ∧
    decInt (encodeInt 0 5 7 ++ [9]) 5 = some (7, [9]) ∧
    Decode NewIndexTable [15, 13, 132, 105, 240, 178, 239] = .panic := by
  have henc : encodeInt 0 5 1337 = [31, 154, 10] := by
    simp [encodeInt, encIntLoop]
  refine ⟨by rw [henc]; rfl, by rw [henc]; decide, rfl, rfl⟩

/-! ### Theorems: HPACK Decode/Encode round trip (claim C1) -/

set_option maxRecDepth 8000 in
/-- Claim C1: false of the code.  Any name or value of length 127 or
more makes its length field take the multi-byte integer path, whose
final octet `decInt` leaves at the cursor; the string literal is then
read shifted by one octet and the decode desyncs: for the single header
(name "a", value = 127 bytes of 0x78) decoding the encoding ends in a
runtime panic, not the original list. -/
theorem claim_C1_roundtrip_desync :
    Decode NewIndexTable (Encode [⟨bstr "a", List.replicate 127 120, false⟩]) = .panic ∧
    Decode NewIndexTable (Encode [⟨bstr "a", List.replicate 127 120, false⟩]) ≠
      .ok [⟨bstr "a", List.replicate 127 120, false⟩] NewIndexTable := by
  have henc : Encode [⟨bstr "a", List.replicate 127 120, false⟩] =
      0 :: ([1, 97] ++ ([127, 0] ++ List.replicate 127 120)) ++ [] := by
    simp [Encode, encodeStringLiteral, encodeInt, encIntLoop, bstr]
  rw [henc]
  refine ⟨by decide, by decide⟩

/-! ### Theorems: HPACK size-update divergence and dynamic-table panics -/

theorem decodeLoop_sizeUpdate_diverge (tl : List Nat) :
    ∀ (gas : Nat) (t : IndexTable) (acc : List Header),
      decodeLoop gas t (32 :: tl) acc = .diverge := by
  intro gas
  induction gas with
  | zero => intro t acc; rfl
  | succ gas ih =>
    intro t acc
    rw [decodeLoop]
    norm_num
    exact ih t acc

/-- Claim C3: false of the code.  `Decode` does not terminate on a
size-update field: the `001xxxxx` branch of the loop is a no-op that
neither calls `UpdateMaxSize` nor consumes the octet, so the loop runs
forever (every gas bound is exhausted with the input unchanged). -/
theorem claim_C3_sizeUpdate_no_exit :
    (∀ (gas : Nat) (t : IndexTable) (acc : List Header) (tl : List Nat),
        decodeLoop gas t (32 :: tl) acc = .diverge) ∧
    Decode NewIndexTable [32] = .diverge :=
  ⟨fun gas t acc tl => decodeLoop_sizeUpdate_diverge tl gas t acc, rfl⟩

/-- Claim C2: false of the code.  Whenever `reduce` actually has to
evict (cumulative size above the budget) it reads
`dynamicTable[len(dynamicTable)]`, one past the end, and panics: a
size-update to 0 on a table holding one 34-byte entry panics instead of
emptying the table, and an insertion pushing a small table over its
10-byte budget panics instead of evicting oldest-first. -/
theorem claim_C2_reduce_panics :
    ((NewIndexTable.Add ⟨bstr "a", bstr "b", false⟩).bind
        (fun t => t.UpdateMaxSize 0) = none) ∧
    (IndexTable.Add ⟨[], 0, 10⟩ ⟨bstr "a", bstr "b", false⟩ = none) ∧
    (NewIndexTable.Add ⟨bstr "a", bstr "b", false⟩ =
      some ⟨[⟨bstr "a", bstr "b", false⟩], 34, 4096⟩) := by
  refine ⟨by decide, by decide, by decide⟩

end Hpack

namespace Http2

/-! ### Theorems: frame codec (claims C4 and C7) -/

/-- Claim C4: false of the code for SETTINGS.  `SettingsFrame.Encode`
writes each (identifier, value) entry as seven octets (three identifier
bytes), while `Decode` consumes six-octet entries, so parsing the
encoding of a one-entry SETTINGS frame (MAX_CONCURRENT_STREAMS = 64)
mis-aligns and panics on the leftover octet instead of returning the
original frame. -/
theorem claim_C4_settings_roundtrip_panics :
    SettingsFrame.Encode ⟨⟨⟨0, 4, 0, 0⟩, []⟩, false, [⟨3, 64⟩]⟩ =
      [0, 0, 7, 4, 0, 0, 0, 0, 0, 0, 0, 3, 0, 0, 0, 64] ∧
    ParseFrame (SettingsFrame.Encode ⟨⟨⟨0, 4, 0, 0⟩, []⟩, false, [⟨3, 64⟩]⟩) 16384 =
      .panic ∧
    settingsDecodeLoop [0, 0, 3, 0, 0, 0, 64] [] = none := by
  refine ⟨rfl, rfl, rfl⟩

/-- Claim C7: false of the code.  On a HEADERS payload with the PRIORITY
flag set (stream dependency 3, weight 10, one fragment octet 0xAA), the
decoder reads the weight from the fifth octet but advances only four, so
the weight octet 10 is left at the head of the block fragment: the
fragment is [10, 170], not the remaining payload [170]. -/
theorem claim_C7_priority_section :
    ∃ hf, headersFrameDecode ⟨⟨6, 1, 32, 1⟩, [0, 0, 0, 3, 10, 170]⟩ = some hf ∧
      hf.priority = true ∧ hf.streamDependency = 3 ∧ hf.weight = 10 ∧
      hf.blockFragment = [10, 170] ∧ hf.blockFragment ≠ [170] :=
  ⟨_, rfl, rfl, rfl, rfl, rfl, by decide⟩

/-! ### Theorems: stream machine (claims C5 and C10) -/

/-- Counterexample to claim C5 as stated: in half-closed(remote) a
received WINDOW_UPDATE is not accepted-and-ignored — the stream sends
RST_STREAM with stream-closed (0x5) and moves to closed. -/
theorem claim_C5_counterexample :
    streamRecvFrame 7 .halfClosedRemote
        (.windowUpdate ⟨⟨⟨4, 8, 0, 7⟩, [0, 0, 0, 1]⟩, 1⟩) =
      (.closed, [.sendRST 7 5, .transition .closed]) ∧
    streamRecvFrame 7 .halfClosedRemote
        (.windowUpdate ⟨⟨⟨4, 8, 0, 7⟩, [0, 0, 0, 1]⟩, 1⟩) ≠
      (.halfClosedRemote, []) := by
  refine ⟨rfl, by decide⟩

/-- Claim C5 as amended: in half-closed(remote), a received RST_STREAM
moves the stream to closed without sending anything; every other frame —
WINDOW_UPDATE included (PRIORITY never reaches the stream, the parser
rejects it as unknown) — makes the stream send RST_STREAM with
stream-closed (0x5) and move to closed. -/
theorem claim_C5_halfClosedRemote (id : Nat) (fr : ParsedFrame) :
    streamRecvFrame id .halfClosedRemote fr =
      match fr with
      | .rstStream _ => (.closed, [.transition .closed])
      | _ => (.closed, [.sendRST id 5, .transition .closed]) := by
  cases fr <;> rfl

/-- Claim C10: `StreamReader.Read` copies `min capacity len(rbuf)`
octets and reports io.EOF exactly when the EOF flag is set and the
buffer is empty after the copy; in every other case the error is nil. -/
theorem claim_C10_streamReader_read (s : StreamReader) (capacity : Nat) :
    (s.Read capacity).1 = min capacity s.rbuf.length ∧
    ((s.Read capacity).2.1 = true ↔
      s.eof = true ∧ s.rbuf.drop (min capacity s.rbuf.length) = []) := by
  simp only [StreamReader.Read]
  split
  case isTrue h =>
    refine ⟨rfl, ?_⟩
    simp only [List.length_eq_zero] at h
    simp [h.1, h.2]
  case isFalse h =>
    refine ⟨rfl, ?_⟩
    simp only [List.length_eq_zero] at h
    simp only [Bool.false_eq_true, false_iff]
    exact h

/-! ### Theorems: connection read loop (claim C6) -/

theorem newStream_register (c : ConnState) (id : Nat) (h : c.maxStreamId < id) :
    (newStream c id).maxStreamId = id ∧ (newStream c id).registered.contains id = true := by
  rw [newStream]
  simp only [if_pos h]
  by_cases hc : id ∈ c.registered
  · simp [hc]
  · simp [hc]

theorem handleH2Loop_headers_ok (ids : List Nat) :
    ∀ (gas : Nat) (c : ConnState) (out : List OutFrame),
      ids.length < gas →
      (∀ i ∈ ids, i % 2 = 1) →
      (∀ i ∈ ids, c.maxStreamId < i) →
      ids.Pairwise (· < ·) →
      ∃ c2, handleH2Loop gas c (ids.map (fun i => .frame (plainHeadersFrame i))) out =
        .ok c2 out := by
  induction ids with
  | nil =>
    intro gas c out hgas _ _ _
    match gas, hgas with
    | gas + 1, _ => exact ⟨c, rfl⟩
  | cons id tl ih =>
    intro gas c out hgas hodd hmax hpw
    match gas, hgas with
    | gas + 1, hgas =>
      have hid : id % 2 = 1 := hodd id (by simp)
      have hcmax : c.maxStreamId < id := hmax id (by simp)
      obtain ⟨hmax2, hreg2⟩ := newStream_register c id hcmax
      have heven : ¬ (0 < id ∧ id % 2 = 0) := by omega
      have hsid : (plainHeadersFrame id).header.streamId = id := rfl
      have hsw : handleSwitch c (plainHeadersFrame id)
          (tl.map (fun i => .frame (plainHeadersFrame i))) out =
          .next (newStream c id) (tl.map (fun i => .frame (plainHeadersFrame i))) out := by
        rfl
      have hpos : 0 < id := by omega
      have hstep : handleH2Loop (gas + 1) c
          ((id :: tl).map (fun i => .frame (plainHeadersFrame i))) out =
          handleH2Loop gas (newStream c id)
            (tl.map (fun i => .frame (plainHeadersFrame i))) out := by
        simp only [List.map_cons, handleH2Loop, hsid]
        rw [if_neg heven]
        simp only [hsw]
        rw [if_pos hpos, if_pos hreg2]
      rw [hstep]
      exact ih gas (newStream c id) out
        (by simp only [List.length_cons] at hgas; omega)
        (fun i hi => hodd i (by simp [hi]))
        (fun i hi => by
          rw [hmax2]
          exact (List.pairwise_cons.mp hpw).1 i hi)
        (List.pairwise_cons.mp hpw).2

/-- Claim C6: in the connection read loop, (1) a sequence of HEADERS
frames with odd, strictly increasing stream ids above everything seen is
accepted without error or GOAWAY; (2) any parsed frame with a positive
even stream id makes the loop return ErrConnProtocolError, and `Handle`
sends GOAWAY with protocol-error (0x1); (3) a stream-addressed DATA
frame whose odd id is unregistered and at most the highest id seen makes
the loop return ErrConnStreamError, and `Handle` sends GOAWAY with
stream-closed (0x5). -/
theorem claim_C6_connection_loop :
    (∀ (c : ConnState) (ids : List Nat),
        (∀ i ∈ ids, i % 2 = 1) →
        (∀ i ∈ ids, c.maxStreamId < i) →
        ids.Pairwise (· < ·) →
        ∃ c2, handleH2 c (ids.map (fun i => .frame (plainHeadersFrame i))) = .ok c2 []) ∧
    (∀ (c : ConnState) (f : ParsedFrame) (rest : List WireItem),
        0 < f.header.streamId → f.header.streamId % 2 = 0 →
        connHandle c (.frame f :: rest) =
          .connErr .protocolError c [.goAway c.maxStreamId 1]) ∧
    (∀ (c : ConnState) (id : Nat) (rest : List WireItem),
        id % 2 = 1 → id ≤ c.maxStreamId → c.registered.contains id = false →
        connHandle c (.frame (plainDataFrame id) :: rest) =
          .connErr .streamError c [.goAway c.maxStreamId 5]) := by
  refine ⟨?_, ?_, ?_⟩
  · intro c ids hodd hmax hpw
    rw [handleH2]
    exact handleH2Loop_headers_ok ids _ c []
      (by rw [List.length_map]; omega) hodd hmax hpw
  · intro c f rest h0 h2
    have hcond : 0 < f.header.streamId ∧ f.header.streamId % 2 = 0 := ⟨h0, h2⟩
    rw [connHandle, handleH2]
    simp only [List.length_cons, handleH2Loop]
    rw [if_pos hcond]
    rfl
  · intro c id rest hodd hle hreg
    have heven : ¬ (0 < id ∧ id % 2 = 0) := by omega
    have hsid : (plainDataFrame id).header.streamId = id := rfl
    have hsw : handleSwitch c (plainDataFrame id) rest [] = .next c rest [] := rfl
    have hpos : 0 < id := by omega
    rw [connHandle, handleH2]
    simp only [List.length_cons, handleH2Loop, hsid]
    rw [if_neg heven]
    simp only [hsw]
    rw [if_pos hpos, hreg]
    simp only [Bool.false_eq_true, if_false]
    rw [if_pos hle]
    rfl

/-- Witness for claim C6: (1) HEADERS on streams 1, 3, 5 from a fresh
connection are accepted; (2) a HEADERS frame on stream 2 draws
GOAWAY(protocol-error); (3) DATA on unregistered stream 3 when 5 is the
highest id draws GOAWAY(stream-closed). -/
theorem claim_C6_connection_loop_witness :
    (∃ c2, handleH2 ⟨0, [], NewSettings, Hpack.NewIndexTable⟩
        ([1, 3, 5].map (fun i => .frame (plainHeadersFrame i))) = .ok c2 []) ∧
    connHandle ⟨0, [], NewSettings, Hpack.NewIndexTable⟩
        [.frame (plainHeadersFrame 2)] =
      .connErr .protocolError ⟨0, [], NewSettings, Hpack.NewIndexTable⟩ [.goAway 0 1] ∧
    connHandle ⟨5, [5], NewSettings, Hpack.NewIndexTable⟩
        [.frame (plainDataFrame 3)] =
      .connErr .streamError ⟨5, [5], NewSettings, Hpack.NewIndexTable⟩ [.goAway 5 5] :=
  ⟨claim_C6_connection_loop.1 _ [1, 3, 5] (by decide) (by decide) (by decide),
   claim_C6_connection_loop.2.1 _ (plainHeadersFrame 2) [] (by decide) (by decide),
   claim_C6_connection_loop.2.2 _ 3 [] (by decide) (by decide) (by decide)⟩

end Http2

namespace Http11

/-! ### Theorems: h2c switching response (claim C9) -/

/-- Counterexample to claim C9 as stated: the two response headers live
in a Go map, whose iteration order is unspecified; visiting the same two
entries in the other order produces a different byte string, so the
response is not always the claimed literal with Connection first. -/
theorem claim_C9_counterexample :
    switchingResponse [("Upgrade", "h2c"), ("Connection", "Upgrade")] ≠
      "HTTP/1.1 101 Switching Protocols\r\nConnection: Upgrade\r\nUpgrade: h2c\r\n\r\n" ∧
    List.Perm [("Upgrade", "h2c"), ("Connection", "Upgrade")]
      [("Connection", "Upgrade"), ("Upgrade", "h2c")] := by
  refine ⟨by decide, by decide⟩

/-- Claim C9 as amended: on a successful h2c upgrade the switching
response is the status line "HTTP/1.1 101 Switching Protocols" followed
by the headers "Connection: Upgrade" and "Upgrade: h2c" in the order the
Go map happens to be iterated (either order), then a blank line; with
Connection visited first it is exactly the claimed byte string. -/
theorem claim_C9_switching (order : List (String × String))
    (horder : order = [("Connection", "Upgrade"), ("Upgrade", "h2c")] ∨
              order = [("Upgrade", "h2c"), ("Connection", "Upgrade")]) :
    switchingResponse order =
        "HTTP/1.1 101 Switching Protocols\r\nConnection: Upgrade\r\nUpgrade: h2c\r\n\r\n" ∨
    switchingResponse order =
        "HTTP/1.1 101 Switching Protocols\r\nUpgrade: h2c\r\nConnection: Upgrade\r\n\r\n" := by
  rcases horder with h | h
  · subst h; left; rfl
  · subst h; right; rfl

/-- Witness for claim C9 (amended) at the Connection-first iteration
order. -/
theorem claim_C9_switching_witness :
    ([("Connection", "Upgrade"), ("Upgrade", "h2c")] =
        [("Connection", "Upgrade"), ("Upgrade", "h2c")] ∨
     [("Connection", "Upgrade"), ("Upgrade", "h2c")] =
        [("Upgrade", "h2c"), ("Connection", "Upgrade")]) ∧
    (switchingResponse [("Connection", "Upgrade"), ("Upgrade", "h2c")] =
        "HTTP/1.1 101 Switching Protocols\r\nConnection: Upgrade\r\nUpgrade: h2c\r\n\r\n" ∨
     switchingResponse [("Connection", "Upgrade"), ("Upgrade", "h2c")] =
        "HTTP/1.1 101 Switching Protocols\r\nUpgrade: h2c\r\nConnection: Upgrade\r\n\r\n") :=
  ⟨Or.inl rfl, claim_C9_switching _ (Or.inl rfl)⟩

end Http11

end Goh2
